import Mathlib

/-!
Verification of the ToluStock stock/inventory ledger subsystem.

The definitions below are a shallow embedding of `src/logic/stock_logic.py`
(class `StockManager`) and of `generate_sku` from `src/logic/utils.py`.
The SQLite store is modelled as explicit lists of rows; `CURRENT_TIMESTAMP`
and the SKU time token are passed in as parameters; the external permission
oracle (`user_manager.has_permission`) is a `String → Bool` parameter and the
acting user (`user_manager.get_current_user`) an `Option Nat` parameter.
Storage failure of the `stock_movements` INSERT (an exception swallowed inside
`record_stock_movement`) is modelled by the explicit `movFail` flag; the
happy path is `movFail = false`.
-/

/-- A dynamically typed SQLite value, as stored in product columns that the
keyword-argument update path can write arbitrary Python values into. -/
inductive Val where
  | vnull : Val
  | vint : Int → Val
  | vstr : String → Val
  deriving DecidableEq

/-- Read a `Val` as a string (TEXT-affinity column such as `name`/`sku`;
every caller in the claims stores a string there). -/
def Val.asStr : Val → String
  | .vstr s => s
  | _ => ""

/-- Read a `Val` as an integer (INTEGER-affinity column such as
`min_stock_level`; every caller in the claims stores an integer there). -/
def Val.asInt : Val → Int
  | .vint n => n
  | _ => 0

/-- Embed Python `int | None` into a stored value. -/
def valOfNat : Option Nat → Val
  | none => Val.vnull
  | some n => Val.vint (Int.ofNat n)

/-- Embed Python `str | None` into a stored value. -/
def valOfStr : Option String → Val
  | none => Val.vnull
  | some s => Val.vstr s

/-- A row of the `categories` table. -/
structure Category where
  id : Nat
  name : String
  description : Option String
  deriving DecidableEq

/-- A row of the `products` table. `quantity` is an `Int` because the only
code paths that write it (`add_product`, `adjust_stock`) write Python ints
and `update_product` excludes it from its valid fields. -/
structure Product where
  id : Nat
  name : String
  category_id : Val
  sku : String
  description : Val
  unit_price : Val
  quantity : Int
  min_stock_level : Int
  supplier_id : Val
  created_at : Nat
  updated_at : Nat
  deriving DecidableEq

/-- A row of the `stock_movements` table. -/
structure Movement where
  id : Nat
  product_id : Nat
  movement_type : String
  quantity : Int
  reference_id : Option String
  notes : Option String
  user_id : Option Nat
  created_at : Nat
  deriving DecidableEq

/-- The relevant tables of the SQLite database, plus the AUTOINCREMENT
counters for the two tables the engine inserts into. -/
structure DB where
  categories : List Category
  products : List Product
  movements : List Movement
  nextProductId : Nat
  nextMovementId : Nat
  deriving DecidableEq

/-- `generate_sku` from `src/logic/utils.py`.  Python:
`category[:3].upper() if category else "GEN"` for the prefix,
`''.join(c for c in product_name[:4] if c.isalnum()).upper()` for the body,
and a `"%m%d%H%M"` time token `ts` as the suffix (passed in here since it is
read from the wall clock).  Python string slicing, `isalnum` and `upper` are
modelled per code point (`String.data`), matching Python on ASCII input. -/
def generate_sku (product_name : String) (category : String) (ts : String) : String :=
  let category_prefix := if category.isEmpty then "GEN"
    else String.mk ((category.data.take 3).map Char.toUpper)
  let product_prefix := String.mk (((product_name.data.take 4).filter Char.isAlphanum).map Char.toUpper)
  category_prefix ++ "-" ++ product_prefix ++ "-" ++ ts

/-- `StockManager.get_product_by_id`: `SELECT ... WHERE p.id = ?`, first row. -/
def get_product_by_id (db : DB) (product_id : Nat) : Option Product :=
  db.products.find? (fun p => p.id == product_id)

/-- `StockManager.get_product_by_sku`: `SELECT ... WHERE p.sku = ?`, first row. -/
def get_product_by_sku (db : DB) (sku : String) : Option Product :=
  db.products.find? (fun p => p.sku == sku)

/-- `StockManager.record_stock_movement`: one INSERT into `stock_movements`.
`movFail = true` models the execution in which that INSERT raises; the
Python code catches the exception inside this function and returns `None`,
leaving the database unchanged. -/
def record_stock_movement (user : Option Nat) (now : Nat) (movFail : Bool) (db : DB)
    (product_id : Nat) (movement_type : String) (quantity : Int)
    (reference_id : Option String) (mnotes : Option String) : Option Nat × DB :=
  if movFail then (none, db)
  else
    let m : Movement :=
      { id := db.nextMovementId, product_id := product_id, movement_type := movement_type,
        quantity := quantity, reference_id := reference_id, notes := mnotes,
        user_id := user, created_at := now }
    (some db.nextMovementId,
      { db with movements := db.movements ++ [m], nextMovementId := db.nextMovementId + 1 })

/-- The category-name lookup inside `StockManager.add_product`: Python runs the
SELECT only when `category_id` is truthy (so `0` and `None` both yield `""`),
and keeps `""` when the id matches no category row. -/
def lookupCategoryName (db : DB) (category_id : Option Nat) : String :=
  match category_id with
  | none => ""
  | some cid =>
    if cid = 0 then ""
    else
      match db.categories.find? (fun c => c.id == cid) with
      | some c => c.name
      | none => ""

/-- The SKU resolution step of `StockManager.add_product`: Python generates a
SKU when the `sku` argument is falsy (`None` or `""`), otherwise keeps it. -/
def resolveSku (db : DB) (name : String) (category_id : Option Nat) (skuTs : String) :
    Option String → String
  | none => generate_sku name (lookupCategoryName db category_id) skuTs
  | some s => if s = "" then generate_sku name (lookupCategoryName db category_id) skuTs else s

/-- `StockManager.add_product`.  Checks the `add_stock` permission, resolves
the SKU (generating one when `sku` is `None` or `""`, both falsy in Python),
fails returning `None` when a product with that SKU already exists, inserts
the product row, and records an initial `in` movement only when
`quantity > 0`. -/
def add_product (perm : String → Bool) (user : Option Nat) (now : Nat) (skuTs : String)
    (movFail : Bool) (db : DB) (name : String) (category_id : Option Nat)
    (description : Option String) (unit_price : Val) (quantity : Int)
    (min_stock_level : Int) (supplier_id : Option Nat) (sku : Option String) :
    Option Nat × DB :=
  if perm "add_stock" = false then (none, db)
  else
    let resolvedSku := resolveSku db name category_id skuTs sku
    match get_product_by_sku db resolvedSku with
    | some _ => (none, db)
    | none =>
      let pid := db.nextProductId
      let p : Product :=
        { id := pid, name := name, category_id := valOfNat category_id, sku := resolvedSku,
          description := valOfStr description, unit_price := unit_price, quantity := quantity,
          min_stock_level := min_stock_level, supplier_id := valOfNat supplier_id,
          created_at := now, updated_at := now }
      let db1 : DB := { db with products := db.products ++ [p], nextProductId := pid + 1 }
      if quantity > 0 then
        (some pid, (record_stock_movement user now movFail db1 pid "in" quantity
          (some "Initial stock") (some "Initial inventory")).2)
      else (some pid, db1)

/-- The `valid_fields` list of `StockManager.update_product`. -/
def valid_fields : List String :=
  ["name", "category_id", "sku", "description", "unit_price", "min_stock_level", "supplier_id"]

/-- One `field = ?` assignment of the UPDATE built by `update_product`. -/
def applyField (p : Product) (kv : String × Val) : Product :=
  if kv.1 = "name" then { p with name := kv.2.asStr }
  else if kv.1 = "category_id" then { p with category_id := kv.2 }
  else if kv.1 = "sku" then { p with sku := kv.2.asStr }
  else if kv.1 = "description" then { p with description := kv.2 }
  else if kv.1 = "unit_price" then { p with unit_price := kv.2 }
  else if kv.1 = "min_stock_level" then { p with min_stock_level := kv.2.asInt }
  else if kv.1 = "supplier_id" then { p with supplier_id := kv.2 }
  else p

/-- The kwargs pairs `update_product` keeps: those whose field name is in
`valid_fields`. -/
def recognizedFields (kwargs : List (String × Val)) : List (String × Val) :=
  kwargs.filter (fun kv => valid_fields.contains kv.1)

/-- `StockManager.update_product`.  Filters kwargs to `valid_fields`; with no
recognized field returns `False`; otherwise runs
`UPDATE products SET <fields>, updated_at = CURRENT_TIMESTAMP WHERE id = ?`
and returns whether a row was affected. -/
def update_product (perm : String → Bool) (now : Nat) (db : DB) (product_id : Nat)
    (kwargs : List (String × Val)) : Bool × DB :=
  if perm "edit_stock" = false then (false, db)
  else
    let updates := recognizedFields kwargs
    if updates.isEmpty then (false, db)
    else
      let newProducts := db.products.map (fun p =>
        if p.id = product_id then { updates.foldl applyField p with updated_at := now } else p)
      (db.products.any (fun p => p.id == product_id), { db with products := newProducts })

/-- `StockManager.delete_product`.  Counts the product's movements; with one
or more it returns `False` deleting nothing, otherwise runs
`DELETE FROM products WHERE id = ?` and returns whether a row was affected. -/
def delete_product (perm : String → Bool) (db : DB) (product_id : Nat) : Bool × DB :=
  if perm "delete_stock" = false then (false, db)
  else
    let movementCount := db.movements.countP (fun m => m.product_id == product_id)
    if movementCount > 0 then (false, db)
    else
      (db.products.any (fun p => p.id == product_id),
        { db with products := db.products.filter (fun p => p.id != product_id) })

/-- `StockManager.adjust_stock`.  Reads the current quantity, returns `True`
immediately when the difference is zero, otherwise UPDATEs the product row
(quantity and `updated_at`) and, when a row was affected, records one
movement of type `in`/`out` with quantity `abs(difference)`,
`reference_id = "adjustment"` and `notes = reason or "Stock adjustment"`,
then returns `True` without inspecting the movement INSERT's outcome. -/
def adjust_stock (perm : String → Bool) (user : Option Nat) (now : Nat) (movFail : Bool)
    (db : DB) (product_id : Nat) (new_quantity : Int) (reason : Option String) : Bool × DB :=
  if perm "edit_stock" = false then (false, db)
  else
    match get_product_by_id db product_id with
    | none => (false, db)
    | some product =>
      let difference := new_quantity - product.quantity
      if difference = 0 then (true, db)
      else
        let newProducts := db.products.map (fun p =>
          if p.id = product_id then { p with quantity := new_quantity, updated_at := now } else p)
        let db1 : DB := { db with products := newProducts }
        if db.products.any (fun p => p.id == product_id) then
          let movement_type := if difference > 0 then "in" else "out"
          (true, (record_stock_movement user now movFail db1 product_id movement_type
            |difference| (some "adjustment") (some (reason.getD "Stock adjustment"))).2)
        else (false, db1)

/-- Shortage sort key of the low-stock listing: `quantity - min_stock_level`. -/
def shortage (p : Product) : Int := p.quantity - p.min_stock_level

/-- The ordering of `ORDER BY (p.quantity - p.min_stock_level) ASC, p.name`:
strictly smaller shortage first, ties broken by name. -/
def lowStockLE (p q : Product) : Prop :=
  shortage p < shortage q ∨ (shortage p = shortage q ∧ p.name ≤ q.name)

instance : DecidableRel lowStockLE := fun p q => by
  unfold lowStockLE; infer_instance

instance : IsTotal Product lowStockLE :=
  ⟨by
    intro p q
    unfold lowStockLE
    rcases lt_trichotomy (shortage p) (shortage q) with h | h | h
    · exact Or.inl (Or.inl h)
    · rcases le_total p.name q.name with hn | hn
      · exact Or.inl (Or.inr ⟨h, hn⟩)
      · exact Or.inr (Or.inr ⟨h.symm, hn⟩)
    · exact Or.inr (Or.inl h)⟩

instance : IsTrans Product lowStockLE :=
  ⟨by
    intro p q r hpq hqr
    unfold lowStockLE at hpq hqr ⊢
    rcases hpq with h1 | h1 <;> rcases hqr with h2 | h2
    · exact Or.inl (h1.trans h2)
    · exact Or.inl (lt_of_lt_of_eq h1 h2.1)
    · exact Or.inl (lt_of_eq_of_lt h1.1 h2)
    · exact Or.inr ⟨h1.1.trans h2.1, h1.2.trans h2.2⟩⟩

/-- `StockManager.get_low_stock_products`:
`WHERE p.quantity <= p.min_stock_level ORDER BY (quantity - min_stock_level) ASC, p.name`. -/
def get_low_stock_products (db : DB) : List Product :=
  List.insertionSort lowStockLE (db.products.filter (fun p => decide (p.quantity ≤ p.min_stock_level)))

/-- Total movement quantity of one type for one product. -/
def movementTotal (pid : Nat) (mtype : String) (ms : List Movement) : Int :=
  ((ms.filter (fun m => m.product_id == pid && m.movement_type == mtype)).map Movement.quantity).sum

/-- Net ledger sum for one product: Σ `in` quantities − Σ `out` quantities. -/
def netMovements (pid : Nat) (ms : List Movement) : Int :=
  movementTotal pid "in" ms - movementTotal pid "out" ms

/-- The central invariant: every stored product row with id `pid` carries a
quantity equal to the net sum of the product's movement ledger. -/
def ledgerOk (db : DB) (pid : Nat) : Prop :=
  ∀ p ∈ db.products, p.id = pid → p.quantity = netMovements pid db.movements

instance (db : DB) (pid : Nat) : Decidable (ledgerOk db pid) := by
  unfold ledgerOk; infer_instance

/-- One `adjust_stock` call of a call sequence: its acting user, wall-clock
time and arguments. -/
structure AdjustCall where
  user : Option Nat
  now : Nat
  product_id : Nat
  new_quantity : Int
  reason : Option String
  deriving DecidableEq

/-- Run a sequence of `adjust_stock` calls (happy path: no storage failure). -/
def runAdjusts (perm : String → Bool) (db : DB) (calls : List AdjustCall) : DB :=
  calls.foldl
    (fun d c => (adjust_stock perm c.user c.now false d c.product_id c.new_quantity c.reason).2) db

/-- Appending one movement row changes `movementTotal` by that row's quantity
exactly when the row matches the product and the type. -/
theorem movementTotal_append (pid : Nat) (t : String) (ms : List Movement) (m : Movement) :
    movementTotal pid t (ms ++ [m]) =
      movementTotal pid t ms +
        (if m.product_id = pid ∧ m.movement_type = t then m.quantity else 0) := by
  unfold movementTotal
  rw [List.filter_append, List.map_append, List.sum_append]
  congr 1
  by_cases h : m.product_id = pid ∧ m.movement_type = t
  · simp [List.filter_cons, h.1, h.2]
  · rw [not_and_or] at h
    rcases h with h | h <;> simp [List.filter_cons, h]

/-- Appending one movement row changes the net ledger sum by that row's signed
contribution. -/
theorem netMovements_append (pid : Nat) (ms : List Movement) (m : Movement) :
    netMovements pid (ms ++ [m]) = netMovements pid ms +
      (if m.product_id = pid then
        (if m.movement_type = "in" then m.quantity
         else if m.movement_type = "out" then - m.quantity else 0)
       else 0) := by
  have hio : ("in" : String) ≠ "out" := by decide
  have hoi : ("out" : String) ≠ "in" := by decide
  unfold netMovements
  rw [movementTotal_append, movementTotal_append]
  by_cases hp : m.product_id = pid
  · by_cases hin : m.movement_type = "in"
    · simp [hp, hin, hoi, hio]
      try omega
    · by_cases hout : m.movement_type = "out"
      · simp [hp, hin, hout, hoi, hio]
        try omega
      · simp [hp, hin, hout]
  · simp [hp]

/-- A product with no movement rows has net ledger sum zero. -/
theorem netMovements_eq_zero (pid : Nat) (ms : List Movement)
    (h : ∀ m ∈ ms, m.product_id ≠ pid) : netMovements pid ms = 0 := by
  unfold netMovements movementTotal
  have hf : ∀ t : String, ms.filter (fun m => m.product_id == pid && m.movement_type == t) = [] := by
    intro t
    rw [List.filter_eq_nil_iff]
    intro m hm
    simp only [Bool.and_eq_true, beq_iff_eq, not_and]
    intro hc
    exact absurd hc (h m hm)
  rw [hf "in", hf "out"]
  simp

/-- No single SET assignment of `update_product` touches `id`, `quantity` or
`created_at`: those columns are not among the assignable fields. -/
theorem applyField_frame (p : Product) (kv : String × Val) :
    (applyField p kv).id = p.id ∧ (applyField p kv).quantity = p.quantity ∧
      (applyField p kv).created_at = p.created_at ∧
      (applyField p kv).updated_at = p.updated_at := by
  unfold applyField
  split_ifs <;> exact ⟨rfl, rfl, rfl, rfl⟩

/-- The whole SET list of `update_product` leaves `id`, `quantity` and
`created_at` unchanged. -/
theorem foldl_applyField_frame (kvs : List (String × Val)) (p : Product) :
    ((kvs.foldl applyField p).id = p.id ∧ (kvs.foldl applyField p).quantity = p.quantity ∧
      (kvs.foldl applyField p).created_at = p.created_at) := by
  induction kvs generalizing p with
  | nil => exact ⟨rfl, rfl, rfl⟩
  | cons kv kvs ih =>
    rw [List.foldl_cons]
    obtain ⟨h1, h2, h3, _⟩ := applyField_frame p kv
    obtain ⟨g1, g2, g3⟩ := ih (applyField p kv)
    exact ⟨g1.trans h1, g2.trans h2, g3.trans h3⟩

/-- The ledger state the claims track for one product id: the net-sum
invariant plus existence of a product row with that id. -/
def ledgerInv (db : DB) (pid : Nat) : Prop :=
  ledgerOk db pid ∧ ∃ p ∈ db.products, p.id = pid

/-- One happy-path `adjust_stock` call — on any product, with any arguments —
preserves the ledger invariant of a product id. -/
theorem adjust_stock_preserves_ledgerInv (perm : String → Bool) (user : Option Nat) (now : Nat)
    (db : DB) (pid pid2 : Nat) (newq : Int) (reason : Option String)
    (hInv : ledgerInv db pid) :
    ledgerInv (adjust_stock perm user now false db pid2 newq reason).2 pid := by
  obtain ⟨hok, hex⟩ := hInv
  unfold adjust_stock
  by_cases hperm : perm "edit_stock" = false
  · rw [if_pos hperm]; exact ⟨hok, hex⟩
  rw [if_neg hperm]
  cases hfind : get_product_by_id db pid2 with
  | none => exact ⟨hok, hex⟩
  | some product =>
    unfold get_product_by_id at hfind
    have hmem : product ∈ db.products := List.mem_of_find?_eq_some hfind
    have hpid2 : product.id = pid2 := by simpa using List.find?_some hfind
    have hany : db.products.any (fun p => p.id == pid2) = true :=
      List.any_eq_true.mpr ⟨product, hmem, by simpa using hpid2⟩
    by_cases hdiff : newq - product.quantity = 0
    · simp only [hdiff, ite_true, if_pos]
      exact ⟨hok, hex⟩
    simp only [hdiff, ite_false, if_neg, hany, ite_true, record_stock_movement,
      Bool.false_eq_true, if_false]
    constructor
    · intro q hq hqid
      rw [List.mem_map] at hq
      obtain ⟨p, hp, rfl⟩ := hq
      rw [netMovements_append]
      by_cases hcase : p.id = pid2
      · simp only [hcase, ite_true] at hqid ⊢
        have hpid : pid2 = pid := by simpa [hcase] using hqid
        have hprod : product.quantity = netMovements pid db.movements :=
          hok product hmem (hpid2.trans hpid)
        rw [if_pos hpid]
        by_cases hpos : newq - product.quantity > 0
        · rw [if_pos hpos, if_pos rfl, abs_of_pos hpos]
          omega
        · have hneg : newq - product.quantity < 0 := by omega
          rw [if_neg hpos, if_neg (by decide : ¬ ("out" : String) = "in"), if_pos rfl,
            abs_of_neg hneg]
          omega
      · simp only [hcase, ite_false] at hqid ⊢
        have hnp : pid2 ≠ pid := by
          intro h
          exact hcase (hqid.trans h.symm)
        rw [if_neg hnp, add_zero]
        exact hok p hp hqid
    · obtain ⟨p, hp, hpid⟩ := hex
      refine ⟨if p.id = pid2 then { p with quantity := newq, updated_at := now } else p,
        List.mem_map.mpr ⟨p, hp, rfl⟩, ?_⟩
      by_cases hcase : p.id = pid2
      · simp only [hcase, ite_true]
        exact hcase ▸ hpid
      · simp only [hcase, ite_false]
        exact hpid

/-- A successful happy-path `createProduct` with a fresh product id, a fresh
movement ledger for that id, and a non-negative initial quantity establishes
the ledger invariant for the new product. -/
theorem add_product_establishes_ledgerInv (perm : String → Bool) (user : Option Nat)
    (now : Nat) (skuTs : String) (db : DB) (name : String) (category_id : Option Nat)
    (description : Option String) (unit_price : Val) (quantity : Int)
    (min_stock_level : Int) (supplier_id : Option Nat) (sku : Option String)
    (pid : Nat) (db1 : DB)
    (hfreshP : ∀ p ∈ db.products, p.id ≠ db.nextProductId)
    (hfreshM : ∀ m ∈ db.movements, m.product_id ≠ db.nextProductId)
    (hq : 0 ≤ quantity)
    (hadd : add_product perm user now skuTs false db name category_id description unit_price
      quantity min_stock_level supplier_id sku = (some pid, db1)) :
    ledgerInv db1 pid := by
  unfold add_product at hadd
  by_cases hperm : perm "add_stock" = false
  · rw [if_pos hperm] at hadd
    exact absurd (congrArg Prod.fst hadd) (by simp)
  rw [if_neg hperm] at hadd
  simp only [] at hadd
  generalize hres : get_product_by_sku db (resolveSku db name category_id skuTs sku) = res at hadd
  cases res with
  | some existing =>
    exact absurd (congrArg Prod.fst hadd) (by simp)
  | none =>
    by_cases hqpos : quantity > 0
    · rw [if_pos hqpos] at hadd
      simp only [record_stock_movement, Bool.false_eq_true, if_false, Prod.mk.injEq,
        Option.some.injEq] at hadd
      obtain ⟨hpid, hdb1⟩ := hadd
      subst hpid
      subst hdb1
      constructor
      · intro p hp hpi
        simp only [List.mem_append, List.mem_singleton] at hp
        rcases hp with hp | hp
        · exact absurd hpi (hfreshP p hp)
        · subst hp
          rw [netMovements_append, netMovements_eq_zero _ _ hfreshM]
          simp
      · exact ⟨_, List.mem_append.mpr (Or.inr (List.mem_singleton.mpr rfl)), rfl⟩
    · rw [if_neg hqpos] at hadd
      simp only [Prod.mk.injEq, Option.some.injEq] at hadd
      obtain ⟨hpid, hdb1⟩ := hadd
      subst hpid
      subst hdb1
      constructor
      · intro p hp hpi
        simp only [List.mem_append, List.mem_singleton] at hp
        rcases hp with hp | hp
        · exact absurd hpi (hfreshP p hp)
        · subst hp
          rw [netMovements_eq_zero _ _ hfreshM]
          show quantity = 0
          omega
      · exact ⟨_, List.mem_append.mpr (Or.inr (List.mem_singleton.mpr rfl)), rfl⟩

/-- A whole sequence of happy-path `adjust_stock` calls preserves the ledger
invariant. -/
theorem runAdjusts_preserves_ledgerInv (perm : String → Bool) (pid : Nat)
    (calls : List AdjustCall) (db : DB) (hInv : ledgerInv db pid) :
    ledgerInv (runAdjusts perm db calls) pid := by
  induction calls generalizing db with
  | nil => exact hInv
  | cons c calls ih =>
    exact ih _ (adjust_stock_preserves_ledgerInv perm c.user c.now _ pid c.product_id
      c.new_quantity c.reason hInv)

/-- C1: for every product, after `createProduct` (with any
`initialQuantity ≥ 0`, into a store where the new id is fresh) and after any
sequence of `adjustStock` calls, every stored row of that product carries a
quantity equal to the sum of its `in` movement quantities minus the sum of
its `out` movement quantities (and the product row exists). -/
theorem c1_quantity_equals_movement_net (perm : String → Bool) (user : Option Nat)
    (now : Nat) (skuTs : String) (db : DB) (name : String) (category_id : Option Nat)
    (description : Option String) (unit_price : Val) (quantity : Int)
    (min_stock_level : Int) (supplier_id : Option Nat) (sku : Option String)
    (pid : Nat) (db1 : DB) (calls : List AdjustCall)
    (hfreshP : ∀ p ∈ db.products, p.id ≠ db.nextProductId)
    (hfreshM : ∀ m ∈ db.movements, m.product_id ≠ db.nextProductId)
    (hq : 0 ≤ quantity)
    (hadd : add_product perm user now skuTs false db name category_id description unit_price
      quantity min_stock_level supplier_id sku = (some pid, db1)) :
    ledgerInv (runAdjusts perm db1 calls) pid :=
  runAdjusts_preserves_ledgerInv perm pid calls db1
    (add_product_establishes_ledgerInv perm user now skuTs db name category_id description
      unit_price quantity min_stock_level supplier_id sku pid db1 hfreshP hfreshM hq hadd)

/-- Concrete instance of `c1_quantity_equals_movement_net`: an empty store, a
product created with initial quantity 5, then one adjustment down to 2. -/
theorem c1_quantity_equals_movement_net_witness :
    (0 : Int) ≤ 5 ∧
      ledgerInv
        (runAdjusts (fun _ => true)
          (add_product (fun _ => true) none 0 "01020304" false
            (DB.mk [] [] [] 1 1) "Widget" none none (Val.vint 0) 5 0 none (some "SKU-1")).2
          [AdjustCall.mk none 2 1 2 none]) 1 :=
  ⟨by decide,
    c1_quantity_equals_movement_net (fun _ => true) none 0 "01020304" (DB.mk [] [] [] 1 1)
      "Widget" none none (Val.vint 0) 5 0 none (some "SKU-1") 1 _ [AdjustCall.mk none 2 1 2 none]
      (by simp) (by simp) (by decide) (by decide)⟩

/-- C2: counterexample to atomicity.  In the execution where the
`stock_movements` INSERT fails (`movFail = true`) after the product UPDATE
succeeded, `adjust_stock` still reports success: the quantity is updated to 3
but no movement row is appended, so the invariant `quantity = Σin − Σout`
that held before the call is broken afterwards.  The code cannot detect this
because `record_stock_movement` swallows the exception and `adjust_stock`
never inspects its return value. -/
theorem c2_adjust_stock_not_atomic :
    ledgerOk (DB.mk []
        [Product.mk 1 "Widget" Val.vnull "SKU-1" Val.vnull (Val.vint 0) 5 0 Val.vnull 0 0]
        [Movement.mk 1 1 "in" 5 (some "Initial stock") (some "Initial inventory") none 0] 2 2) 1 ∧
      (adjust_stock (fun _ => true) none 7 true
          (DB.mk []
            [Product.mk 1 "Widget" Val.vnull "SKU-1" Val.vnull (Val.vint 0) 5 0 Val.vnull 0 0]
            [Movement.mk 1 1 "in" 5 (some "Initial stock") (some "Initial inventory") none 0] 2 2)
          1 3 none).1 = true ∧
      (adjust_stock (fun _ => true) none 7 true
          (DB.mk []
            [Product.mk 1 "Widget" Val.vnull "SKU-1" Val.vnull (Val.vint 0) 5 0 Val.vnull 0 0]
            [Movement.mk 1 1 "in" 5 (some "Initial stock") (some "Initial inventory") none 0] 2 2)
          1 3 none).2.movements =
        [Movement.mk 1 1 "in" 5 (some "Initial stock") (some "Initial inventory") none 0] ∧
      ((adjust_stock (fun _ => true) none 7 true
          (DB.mk []
            [Product.mk 1 "Widget" Val.vnull "SKU-1" Val.vnull (Val.vint 0) 5 0 Val.vnull 0 0]
            [Movement.mk 1 1 "in" 5 (some "Initial stock") (some "Initial inventory") none 0] 2 2)
          1 3 none).2.products.map Product.quantity) = [3] ∧
      ¬ ledgerOk (adjust_stock (fun _ => true) none 7 true
          (DB.mk []
            [Product.mk 1 "Widget" Val.vnull "SKU-1" Val.vnull (Val.vint 0) 5 0 Val.vnull 0 0]
            [Movement.mk 1 1 "in" 5 (some "Initial stock") (some "Initial inventory") none 0] 2 2)
          1 3 none).2 1 := by
  decide

/-- C3: counterexample to negative-quantity rejection.  The code performs no
input validation: `adjust_stock` with new quantity −1 succeeds, stores the
negative quantity and appends an `out` movement of 6; `add_product` with
initial quantity −1 succeeds and stores a product row with quantity −1 (and
no movement).  No `ValidationError` exists anywhere in the code. -/
theorem c3_negative_quantity_not_rejected :
    (adjust_stock (fun _ => true) none 7 false
        (DB.mk []
          [Product.mk 1 "Widget" Val.vnull "SKU-1" Val.vnull (Val.vint 0) 5 0 Val.vnull 0 0]
          [Movement.mk 1 1 "in" 5 (some "Initial stock") (some "Initial inventory") none 0] 2 2)
        1 (-1) none).1 = true ∧
      ((adjust_stock (fun _ => true) none 7 false
          (DB.mk []
            [Product.mk 1 "Widget" Val.vnull "SKU-1" Val.vnull (Val.vint 0) 5 0 Val.vnull 0 0]
            [Movement.mk 1 1 "in" 5 (some "Initial stock") (some "Initial inventory") none 0] 2 2)
          1 (-1) none).2.products.map Product.quantity) = [-1] ∧
      ((adjust_stock (fun _ => true) none 7 false
          (DB.mk []
            [Product.mk 1 "Widget" Val.vnull "SKU-1" Val.vnull (Val.vint 0) 5 0 Val.vnull 0 0]
            [Movement.mk 1 1 "in" 5 (some "Initial stock") (some "Initial inventory") none 0] 2 2)
          1 (-1) none).2.movements.map fun m => (m.movement_type, m.quantity)) =
        [("in", 5), ("out", 6)] ∧
      (add_product (fun _ => true) none 0 "01020304" false (DB.mk [] [] [] 1 1)
          "X" none none (Val.vint 0) (-1) 0 none (some "SKU-2")).1 = some 1 ∧
      ((add_product (fun _ => true) none 0 "01020304" false (DB.mk [] [] [] 1 1)
          "X" none none (Val.vint 0) (-1) 0 none (some "SKU-2")).2.products.map
        Product.quantity) = [-1] ∧
      (add_product (fun _ => true) none 0 "01020304" false (DB.mk [] [] [] 1 1)
          "X" none none (Val.vint 0) (-1) 0 none (some "SKU-2")).2.movements = [] := by
  decide

/-- C6: `adjustStock` with the current quantity (delta = 0) returns success
and leaves the database — product rows including `updated_at`, and the
movement ledger — entirely unchanged, for any `movFail` and any reason; the
call is idempotent. -/
theorem c6_adjust_stock_noop (perm : String → Bool) (user : Option Nat) (now : Nat)
    (movFail : Bool) (db : DB) (pid : Nat) (p : Product) (reason : Option String)
    (hperm : perm "edit_stock" = true)
    (hfind : get_product_by_id db pid = some p) :
    adjust_stock perm user now movFail db pid p.quantity reason = (true, db) := by
  unfold adjust_stock
  rw [if_neg (by simp [hperm]), hfind]
  simp

/-- Concrete instance of `c6_adjust_stock_noop`: one product with quantity 5,
adjusted to 5. -/
theorem c6_adjust_stock_noop_witness :
    (fun _ => true : String → Bool) "edit_stock" = true ∧
      adjust_stock (fun _ => true) none 7 false
        (DB.mk []
          [Product.mk 1 "Widget" Val.vnull "SKU-1" Val.vnull (Val.vint 0) 5 0 Val.vnull 0 0]
          [] 2 1) 1 5 none =
        (true,
          DB.mk []
            [Product.mk 1 "Widget" Val.vnull "SKU-1" Val.vnull (Val.vint 0) 5 0 Val.vnull 0 0]
            [] 2 1) :=
  ⟨rfl,
    c6_adjust_stock_noop (fun _ => true) none 7 false _ 1
      (Product.mk 1 "Widget" Val.vnull "SKU-1" Val.vnull (Val.vint 0) 5 0 Val.vnull 0 0) none
      rfl (by decide)⟩

/-- C7: `deleteProduct` returns `False` and removes nothing whenever the
product has one or more movement rows, and permanently removes the product
row (returning `True`) whenever the product exists and has zero movement
rows. -/
theorem c7_delete_product_movement_guard (perm : String → Bool) (db : DB) (pid : Nat)
    (hperm : perm "delete_stock" = true) :
    ((∃ m ∈ db.movements, m.product_id = pid) → delete_product perm db pid = (false, db)) ∧
      ((∀ m ∈ db.movements, m.product_id ≠ pid) → (∃ p ∈ db.products, p.id = pid) →
        delete_product perm db pid =
          (true, { db with products := db.products.filter (fun p => p.id != pid) })) := by
  constructor
  · intro hmov
    unfold delete_product
    rw [if_neg (by simp [hperm])]
    have hcnt : 0 < db.movements.countP (fun m => m.product_id == pid) := by
      rw [List.countP_pos_iff]
      obtain ⟨m, hm, he⟩ := hmov
      exact ⟨m, hm, by simpa using he⟩
    rw [if_pos hcnt]
  · intro hmov hex
    unfold delete_product
    rw [if_neg (by simp [hperm])]
    have hcnt : db.movements.countP (fun m => m.product_id == pid) = 0 := by
      rw [List.countP_eq_zero]
      intro m hm
      simpa using hmov m hm
    rw [hcnt, if_neg (by decide : ¬ (0 : Nat) > 0)]
    obtain ⟨p, hp, hpid⟩ := hex
    have hany : db.products.any (fun p => p.id == pid) = true :=
      List.any_eq_true.mpr ⟨p, hp, by simpa using hpid⟩
    rw [hany]

/-- Concrete instances of `c7_delete_product_movement_guard`: a product with
one movement is kept (result `False`), a product with no movements is
removed (result `True`). -/
theorem c7_delete_product_movement_guard_witness :
    delete_product (fun _ => true)
        (DB.mk []
          [Product.mk 1 "Widget" Val.vnull "SKU-1" Val.vnull (Val.vint 0) 5 0 Val.vnull 0 0]
          [Movement.mk 1 1 "in" 5 (some "Initial stock") none none 0] 2 2) 1 =
      (false,
        DB.mk []
          [Product.mk 1 "Widget" Val.vnull "SKU-1" Val.vnull (Val.vint 0) 5 0 Val.vnull 0 0]
          [Movement.mk 1 1 "in" 5 (some "Initial stock") none none 0] 2 2) ∧
    delete_product (fun _ => true)
        (DB.mk []
          [Product.mk 1 "Gadget" Val.vnull "SKU-2" Val.vnull (Val.vint 0) 0 0 Val.vnull 0 0]
          [] 2 1) 1 =
      (true, DB.mk [] [] [] 2 1) :=
  ⟨(c7_delete_product_movement_guard (fun _ => true) _ 1 rfl).1 (by decide),
    ((c7_delete_product_movement_guard (fun _ => true) _ 1 rfl).2 (by decide) (by decide)).trans
      (by decide)⟩

/-- C5: when some existing product already has the SKU `s` (a non-empty
explicit SKU, hence kept by the resolution step), a second `createProduct`
with that SKU fails — `add_product` returns Python `None`, its only failure
signal, the same value its duplicate-SKU branch produces — and the database,
including the first product's row, is returned entirely unchanged. -/
theorem c5_duplicate_sku_rejected (perm : String → Bool) (user : Option Nat) (now : Nat)
    (skuTs : String) (movFail : Bool) (db : DB) (name : String) (category_id : Option Nat)
    (description : Option String) (unit_price : Val) (quantity : Int) (min_stock_level : Int)
    (supplier_id : Option Nat) (s : String)
    (hs : s ≠ "")
    (hdup : ∃ p ∈ db.products, p.sku = s) :
    add_product perm user now skuTs movFail db name category_id description unit_price quantity
      min_stock_level supplier_id (some s) = (none, db) := by
  unfold add_product
  by_cases hperm : perm "add_stock" = false
  · rw [if_pos hperm]
  rw [if_neg hperm]
  have hrs : resolveSku db name category_id skuTs (some s) = s := by
    unfold resolveSku
    simp [hs]
  simp only [hrs]
  have hsome : (get_product_by_sku db s).isSome = true := by
    unfold get_product_by_sku
    rw [List.find?_isSome]
    obtain ⟨p, hp, hpsku⟩ := hdup
    exact ⟨p, hp, by simpa using hpsku⟩
  obtain ⟨q, hq⟩ := Option.isSome_iff_exists.mp hsome
  rw [hq]

/-- Concrete instance of `c5_duplicate_sku_rejected`: a second product with
the explicit SKU `"SKU-1"` of an existing product is rejected and the store
is unchanged. -/
theorem c5_duplicate_sku_rejected_witness :
    add_product (fun _ => true) none 9 "01020304" false
        (DB.mk []
          [Product.mk 1 "Widget" Val.vnull "SKU-1" Val.vnull (Val.vint 0) 5 0 Val.vnull 0 0]
          [] 2 1) "Clone" none none (Val.vint 0) 3 0 none (some "SKU-1") =
      (none,
        DB.mk []
          [Product.mk 1 "Widget" Val.vnull "SKU-1" Val.vnull (Val.vint 0) 5 0 Val.vnull 0 0]
          [] 2 1) :=
  c5_duplicate_sku_rejected (fun _ => true) none 9 "01020304" false _ "Clone" none none
    (Val.vint 0) 3 0 none "SKU-1" (by decide) (by decide)

/-- `isAlphanum` characterized by the character's code point. -/
theorem isAlphanum_iff_toNat (c : Char) : c.isAlphanum = true ↔
    (65 ≤ c.toNat ∧ c.toNat ≤ 90) ∨ (97 ≤ c.toNat ∧ c.toNat ≤ 122) ∨
      (48 ≤ c.toNat ∧ c.toNat ≤ 57) := by
  simp only [Char.isAlphanum, Char.isAlpha, Char.isUpper, Char.isLower, Char.isDigit,
    Bool.or_eq_true, Bool.and_eq_true, decide_eq_true_eq, ge_iff_le, UInt32.le_def,
    BitVec.le_def, Char.toNat, UInt32.toNat]
  tauto

/-- `Char.ofNat` of a valid code point keeps the code point. -/
theorem ofNat_toNat_of_valid (n : Nat) (h : n.isValidChar) : (Char.ofNat n).toNat = n := by
  unfold Char.ofNat
  rw [dif_pos h]
  unfold Char.ofNatAux Char.toNat
  simp [UInt32.toNat, UInt32.ofNatCore]

/-- Uppercasing an alphanumeric character keeps it alphanumeric. -/
theorem isAlphanum_toUpper (c : Char) (h : c.isAlphanum = true) :
    c.toUpper.isAlphanum = true := by
  unfold Char.toUpper
  by_cases hc : c.toNat ≥ 97 ∧ c.toNat ≤ 122
  · simp only [hc, and_self, ite_true]
    have hvalid : Nat.isValidChar (c.toNat - 32) := Or.inl (by omega)
    rw [isAlphanum_iff_toNat, ofNat_toNat_of_valid _ hvalid]
    left
    rcases (isAlphanum_iff_toNat c).mp h with h1 | h1 | h1 <;> omega
  · simp only [hc, ite_false]
    exact h

/-- C4: the generated SKU is `{PREFIX}-{BODY}-{SUFFIX}` where PREFIX is the
first three characters of the category name uppercased (`"GEN"` when no
category name is given), and BODY is at most four alphanumeric characters
extracted from the product name — the non-alphanumeric characters among the
leading ones are dropped, not replaced — uppercased; every BODY character is
the uppercase of an alphanumeric character of the product name. -/
theorem c4_generate_sku_format (name category ts : String) :
    ∃ body : String,
      generate_sku name category ts =
        (if category.isEmpty then "GEN"
         else String.mk ((category.data.take 3).map Char.toUpper)) ++ "-" ++ body ++ "-" ++ ts ∧
      body.length ≤ 4 ∧
      (∀ c ∈ body.data, c.isAlphanum = true) ∧
      (∀ c ∈ body.data, ∃ c0 ∈ name.data, c0.isAlphanum = true ∧ c = c0.toUpper) ∧
      body = String.mk (((name.data.take 4).filter Char.isAlphanum).map Char.toUpper) := by
  refine ⟨String.mk (((name.data.take 4).filter Char.isAlphanum).map Char.toUpper),
    rfl, ?_, ?_, ?_, rfl⟩
  · show (String.mk _).length ≤ 4
    rw [String.length_mk, List.length_map]
    calc ((name.data.take 4).filter Char.isAlphanum).length
        ≤ (name.data.take 4).length := List.length_filter_le _ _
      _ ≤ 4 := by rw [List.length_take]; omega
  · intro c hc
    simp only [String.data] at hc
    rw [List.mem_map] at hc
    obtain ⟨c0, hc0, rfl⟩ := hc
    exact isAlphanum_toUpper c0 (List.of_mem_filter hc0)
  · intro c hc
    simp only [String.data] at hc
    rw [List.mem_map] at hc
    obtain ⟨c0, hc0, rfl⟩ := hc
    exact ⟨c0, List.mem_of_mem_take (List.mem_filter.mp hc0).1,
      List.of_mem_filter hc0, rfl⟩

/-- C8: a successful `updateProduct` (recognized fields present, permission
granted, target row exists) returns `True`, touches no other table, and
rewrites the target row only in the seven updatable columns: its `id`,
`quantity` and `created_at` are unchanged and its `updated_at` is stamped to
the current time; every product row with a different id is unchanged. -/
theorem c8_update_product_frame (perm : String → Bool) (now : Nat) (db : DB) (pid : Nat)
    (kwargs : List (String × Val))
    (hperm : perm "edit_stock" = true)
    (hrec : recognizedFields kwargs ≠ [])
    (hex : ∃ p ∈ db.products, p.id = pid) :
    (update_product perm now db pid kwargs).1 = true ∧
    (update_product perm now db pid kwargs).2.movements = db.movements ∧
    (update_product perm now db pid kwargs).2.categories = db.categories ∧
    List.Forall₂ (fun old new =>
        (old.id ≠ pid → new = old) ∧
        (old.id = pid → new.id = old.id ∧ new.quantity = old.quantity ∧
          new.created_at = old.created_at ∧ new.updated_at = now))
      db.products (update_product perm now db pid kwargs).2.products := by
  have hne : (recognizedFields kwargs).isEmpty = false := by
    cases h : recognizedFields kwargs with
    | nil => exact absurd h hrec
    | cons a l => rfl
  obtain ⟨p0, hp0, hp0id⟩ := hex
  have hany : db.products.any (fun p => p.id == pid) = true :=
    List.any_eq_true.mpr ⟨p0, hp0, by simpa using hp0id⟩
  unfold update_product
  rw [if_neg (by simp [hperm])]
  simp only [hne, Bool.false_eq_true, if_false]
  refine ⟨hany, by trivial, by trivial, ?_⟩
  rw [List.forall₂_map_right_iff, List.forall₂_same]
  intro p hp
  constructor
  · intro hne2
    rw [if_neg hne2]
  · intro heq
    rw [if_pos heq]
    obtain ⟨h1, h2, h3⟩ := foldl_applyField_frame (recognizedFields kwargs) p
    exact ⟨h1, h2, h3, rfl⟩

/-- Concrete instance of `c8_update_product_frame`: renaming a product while
also passing a `quantity` kwarg. -/
theorem c8_update_product_frame_witness :
    recognizedFields [("name", Val.vstr "Gadget"), ("quantity", Val.vint 99)] ≠ [] ∧
      (update_product (fun _ => true) 7
          (DB.mk []
            [Product.mk 1 "Widget" Val.vnull "SKU-1" Val.vnull (Val.vint 0) 5 0 Val.vnull 0 0]
            [] 2 1) 1 [("name", Val.vstr "Gadget"), ("quantity", Val.vint 99)]).1 = true ∧
      List.Forall₂ (fun old new =>
          (old.id ≠ 1 → new = old) ∧
          (old.id = 1 → new.id = old.id ∧ new.quantity = old.quantity ∧
            new.created_at = old.created_at ∧ new.updated_at = 7))
        (DB.mk []
          [Product.mk 1 "Widget" Val.vnull "SKU-1" Val.vnull (Val.vint 0) 5 0 Val.vnull 0 0]
          [] 2 1).products
        (update_product (fun _ => true) 7
          (DB.mk []
            [Product.mk 1 "Widget" Val.vnull "SKU-1" Val.vnull (Val.vint 0) 5 0 Val.vnull 0 0]
            [] 2 1) 1 [("name", Val.vstr "Gadget"), ("quantity", Val.vint 99)]).2.products :=
  ⟨by decide,
    (c8_update_product_frame (fun _ => true) 7 _ 1
      [("name", Val.vstr "Gadget"), ("quantity", Val.vint 99)] rfl (by decide) (by decide)).1,
    (c8_update_product_frame (fun _ => true) 7 _ 1
      [("name", Val.vstr "Gadget"), ("quantity", Val.vint 99)] rfl (by decide) (by decide)).2.2.2⟩

/-- C9: `getLowStockProducts` returns exactly the products whose quantity is
at most their minimum stock level (same multiset as the SQL filter), sorted
by ascending `quantity − min_stock_level` with ties broken by name; on the
spec's example `[{qty 0, min 5}, {qty 5, min 5}, {qty 6, min 5},
{qty 10, min 0}]` it returns exactly the first two, most-deficient first. -/
theorem c9_get_low_stock_products :
    (∀ db : DB,
      (get_low_stock_products db).Perm
          (db.products.filter (fun p => decide (p.quantity ≤ p.min_stock_level))) ∧
        List.Sorted lowStockLE (get_low_stock_products db) ∧
        ∀ p : Product, p ∈ get_low_stock_products db ↔
          p ∈ db.products ∧ p.quantity ≤ p.min_stock_level) ∧
    get_low_stock_products
        (DB.mk []
          [Product.mk 1 "A" Val.vnull "S1" Val.vnull (Val.vint 0) 0 5 Val.vnull 0 0,
           Product.mk 2 "B" Val.vnull "S2" Val.vnull (Val.vint 0) 5 5 Val.vnull 0 0,
           Product.mk 3 "C" Val.vnull "S3" Val.vnull (Val.vint 0) 6 5 Val.vnull 0 0,
           Product.mk 4 "D" Val.vnull "S4" Val.vnull (Val.vint 0) 10 0 Val.vnull 0 0]
          [] 5 1) =
      [Product.mk 1 "A" Val.vnull "S1" Val.vnull (Val.vint 0) 0 5 Val.vnull 0 0,
       Product.mk 2 "B" Val.vnull "S2" Val.vnull (Val.vint 0) 5 5 Val.vnull 0 0] := by
  constructor
  · intro db
    refine ⟨List.perm_insertionSort _ _, List.sorted_insertionSort _ _, ?_⟩
    intro p
    unfold get_low_stock_products
    rw [(List.perm_insertionSort lowStockLE _).mem_iff, List.mem_filter]
    simp
  · simp [get_low_stock_products, List.insertionSort, List.orderedInsert, lowStockLE, shortage]

/-- C10: `updateProduct` silently drops unrecognized kwargs (including
`quantity`): the call behaves exactly as if only the recognized fields had
been passed, and a `quantity` kwarg is a no-op; given permission and an
existing target row, the call returns `False` — writing nothing — exactly
when no recognized field at all was supplied. -/
theorem c10_update_product_unrecognized_ignored (perm : String → Bool) (now : Nat) (db : DB)
    (pid : Nat) (kwargs : List (String × Val))
    (hperm : perm "edit_stock" = true)
    (hex : ∃ p ∈ db.products, p.id = pid) :
    update_product perm now db pid kwargs =
        update_product perm now db pid (recognizedFields kwargs) ∧
      (∀ v : Val, update_product perm now db pid (("quantity", v) :: kwargs) =
        update_product perm now db pid kwargs) ∧
      ((update_product perm now db pid kwargs).1 = false ↔ recognizedFields kwargs = []) ∧
      (recognizedFields kwargs = [] → update_product perm now db pid kwargs = (false, db)) := by
  obtain ⟨p0, hp0, hp0id⟩ := hex
  have hany : db.products.any (fun p => p.id == pid) = true :=
    List.any_eq_true.mpr ⟨p0, hp0, by simpa using hp0id⟩
  have hidem : recognizedFields (recognizedFields kwargs) = recognizedFields kwargs := by
    unfold recognizedFields
    rw [List.filter_filter]
    apply List.filter_congr
    intro kv _
    rw [Bool.and_self]
  have hdropq : ∀ v : Val,
      recognizedFields (("quantity", v) :: kwargs) = recognizedFields kwargs := by
    intro v
    unfold recognizedFields
    have hnq : "quantity" ∉ valid_fields := by decide
    simp [List.filter_cons, hnq]
  refine ⟨?_, ?_, ?_, ?_⟩
  · unfold update_product
    rw [hidem]
  · intro v
    unfold update_product
    rw [hdropq v]
  · unfold update_product
    rw [if_neg (by simp [hperm])]
    cases hr : recognizedFields kwargs with
    | nil => simp
    | cons a l =>
      simp only [List.isEmpty_cons, Bool.false_eq_true, if_false, hany]
      simp
  · intro hr
    unfold update_product
    rw [if_neg (by simp [hperm]), hr]
    simp

/-- Concrete instance of `c10_update_product_unrecognized_ignored`: kwargs
mixing the recognized `name` with the unrecognized `quantity` and `bogus`. -/
theorem c10_update_product_unrecognized_ignored_witness :
    (∃ p ∈ (DB.mk []
        [Product.mk 1 "Widget" Val.vnull "SKU-1" Val.vnull (Val.vint 0) 5 0 Val.vnull 0 0]
        [] 2 1).products, p.id = 1) ∧
      update_product (fun _ => true) 7
          (DB.mk []
            [Product.mk 1 "Widget" Val.vnull "SKU-1" Val.vnull (Val.vint 0) 5 0 Val.vnull 0 0]
            [] 2 1) 1
          [("name", Val.vstr "Gadget"), ("quantity", Val.vint 99), ("bogus", Val.vstr "x")] =
        update_product (fun _ => true) 7
          (DB.mk []
            [Product.mk 1 "Widget" Val.vnull "SKU-1" Val.vnull (Val.vint 0) 5 0 Val.vnull 0 0]
            [] 2 1) 1
          (recognizedFields
            [("name", Val.vstr "Gadget"), ("quantity", Val.vint 99), ("bogus", Val.vstr "x")]) :=
  ⟨by decide,
    (c10_update_product_unrecognized_ignored (fun _ => true) 7 _ 1
      [("name", Val.vstr "Gadget"), ("quantity", Val.vint 99), ("bogus", Val.vstr "x")]
      rfl (by decide)).1⟩
